import Mathlib

/-!
Shallow embedding of `src/app.py` (a Streamlit dashboard: an LLM-webhook chat
relay plus a SQLite commute-time tracker), together with theorems checking the
natural-language specification against it.

Conventions of the embedding:
* Python strings are Lean `String`s; character-level operations work on `.data`.
* SQLite `TEXT` comparison (BINARY collation on UTF-8 bytes) is modelled as
  lexicographic comparison of code points (`lexLt`), which agrees with UTF-8
  byte order.
* The database table is a `Store`: a list of rows plus the AUTOINCREMENT
  counter.  `ORDER BY` is modelled as a stable insertion sort by the
  corresponding relation; `LIMIT` as `List.take`.
* SQLite `ROUND(AVG(x), 1)` is modelled exactly in integer arithmetic as the
  number of tenths, rounding halves away from zero (SQLite's documented
  rounding rule); `avg_minutes = avg_minutes_tenths / 10`.
* `requests.post` is modelled by passing in the `Response` the webhook would
  return; exceptions are explicit outcomes.
* Streamlit session state (`st.session_state`) is a record of `Option` fields.
-/

/-- ASCII whitespace, as stripped by Python `str.strip()` (space, tab,
newline, carriage return, vertical tab, form feed). -/
def pyIsSpace (c : Char) : Bool :=
  c = ' ' || c = '\t' || c = '\n' || c = '\r' || c = '\x0b' || c = '\x0c'

/-- Python `str.strip()`: drop leading and trailing whitespace. -/
def pyStrip (s : String) : String :=
  String.mk (((s.data.dropWhile pyIsSpace).reverse.dropWhile pyIsSpace).reverse)

/-- Python `s.startswith('#')` for the single-character pattern used in
`load_webhook_url`: the first character is `'#'`. -/
def startsWithHash (s : String) : Bool :=
  match s.data with
  | [] => false
  | c :: _ => c = '#'

/-- Lexicographic comparison of code-point sequences; models SQLite's BINARY
collation on `TEXT` values (UTF-8 byte order coincides with code-point
order). -/
def lexLt : List Char → List Char → Bool
  | [], [] => false
  | [], _ :: _ => true
  | _ :: _, [] => false
  | a :: as, b :: bs =>
    if a.toNat < b.toNat then true
    else if b.toNat < a.toNat then false
    else lexLt as bs

/-- `lexLt` on whole strings. -/
def strLt (a b : String) : Bool :=
  lexLt a.data b.data

theorem char_eq_of_toNat_eq {a b : Char} (h : a.toNat = b.toNat) : a = b :=
  Char.eq_of_val_eq (UInt32.toNat.inj h)

theorem string_eq_of_data_eq {a b : String} (h : a.data = b.data) : a = b := by
  cases a
  cases b
  exact congrArg String.mk h

theorem lexLt_irrefl : ∀ a : List Char, lexLt a a = false := by
  intro a
  induction a with
  | nil => rfl
  | cons x xs ih => simp [lexLt, ih]

theorem lexLt_trans :
    ∀ a b c : List Char, lexLt a b = true → lexLt b c = true → lexLt a c = true := by
  intro a
  induction a with
  | nil =>
    intro b c hab hbc
    cases b with
    | nil => simp [lexLt] at hab
    | cons y ys =>
      cases c with
      | nil => simp [lexLt] at hbc
      | cons z zs => simp [lexLt]
  | cons x xs ih =>
    intro b c hab hbc
    cases b with
    | nil => simp [lexLt] at hab
    | cons y ys =>
      cases c with
      | nil => simp [lexLt] at hbc
      | cons z zs =>
        rw [lexLt] at hab hbc ⊢
        by_cases h1 : x.toNat < y.toNat
        · by_cases h2 : y.toNat < z.toNat
          · simp [Nat.lt_trans h1 h2]
          · by_cases h3 : z.toNat < y.toNat
            · simp [h2, h3] at hbc
            · have hyz : y.toNat = z.toNat := Nat.le_antisymm (Nat.not_lt.1 h3) (Nat.not_lt.1 h2)
              simp [hyz ▸ h1]
        · by_cases h1' : y.toNat < x.toNat
          · simp [h1, h1'] at hab
          · have hxy : x.toNat = y.toNat := Nat.le_antisymm (Nat.not_lt.1 h1') (Nat.not_lt.1 h1)
            simp [h1, h1'] at hab
            by_cases h2 : y.toNat < z.toNat
            · simp [hxy ▸ h2]
            · by_cases h3 : z.toNat < y.toNat
              · simp [h2, h3] at hbc
              · simp [h2, h3] at hbc
                have hxz1 : ¬ x.toNat < z.toNat := by omega
                have hxz2 : ¬ z.toNat < x.toNat := by omega
                simp [hxz1, hxz2, ih ys zs hab hbc]

theorem lexLt_eq_of_not :
    ∀ a b : List Char, lexLt a b = false → lexLt b a = false → a = b := by
  intro a
  induction a with
  | nil =>
    intro b hab _
    cases b with
    | nil => rfl
    | cons y ys => simp [lexLt] at hab
  | cons x xs ih =>
    intro b hab hba
    cases b with
    | nil => simp [lexLt] at hba
    | cons y ys =>
      rw [lexLt] at hab hba
      by_cases h1 : x.toNat < y.toNat
      · simp [h1] at hab
      · by_cases h2 : y.toNat < x.toNat
        · simp [h1, h2] at hab
          simp [h2] at hba
        · simp [h1, h2] at hab
          simp [h1, h2] at hba
          have hxy : x = y := char_eq_of_toNat_eq (by omega)
          rw [hxy, ih ys hab hba]

theorem lexLt_asymm :
    ∀ a b : List Char, lexLt a b = true → lexLt b a = false := by
  intro a b hab
  by_contra h
  have hba : lexLt b a = true := by
    cases hba : lexLt b a with
    | false => exact absurd hba h
    | true => rfl
  have := lexLt_trans a b a hab hba
  rw [lexLt_irrefl] at this
  exact Bool.false_ne_true this

/-! ## Commute-tracker data model (`commute_logs` table) -/

/-- One row of the `commute_logs` table created by `init_commute_db`.
`id` is the `INTEGER PRIMARY KEY AUTOINCREMENT` surrogate key; the remaining
columns are stored exactly as bound in `insert_commute_log`. -/
structure Row where
  id : Nat
  travel_date : String
  travel_time : String
  route_name : String
  duration_minutes : Int
  notes : String
  created_at : String
deriving DecidableEq

/-- The database file: the rows of `commute_logs` in insertion order, plus the
next AUTOINCREMENT id. -/
structure Store where
  rows : List Row
  nextId : Nat
deriving DecidableEq

/-- `datetime.now()` truncated to the fields that
`isoformat(timespec="seconds")` renders. -/
structure Timestamp where
  year : Nat
  month : Nat
  day : Nat
  hour : Nat
  minute : Nat
  second : Nat

/-- Zero-pad a number to two digits, as `datetime.isoformat` renders month,
day, hour, minute and second. -/
def pad2 (n : Nat) : String :=
  if n < 10 then "0" ++ toString n else toString n

/-- `datetime.isoformat(timespec="seconds")`: `YYYY-MM-DDTHH:MM:SS`, no
sub-second component. -/
def isoformatSeconds (t : Timestamp) : String :=
  toString t.year ++ "-" ++ pad2 t.month ++ "-" ++ pad2 t.day ++ "T" ++
    pad2 t.hour ++ ":" ++ pad2 t.minute ++ ":" ++ pad2 t.second

/-- `insert_commute_log` (src/app.py:74-88): one `INSERT` appending a row whose
`created_at` is `datetime.now().isoformat(timespec="seconds")`; the clock
reading is passed in as `now`. -/
def insert_commute_log (store : Store) (travel_date travel_time route_name : String)
    (duration_minutes : Int) (notes : String) (now : Timestamp) : Store :=
  { rows := store.rows ++
      [{ id := store.nextId
         travel_date := travel_date
         travel_time := travel_time
         route_name := route_name
         duration_minutes := duration_minutes
         notes := notes
         created_at := isoformatSeconds now }]
    nextId := store.nextId + 1 }

/-- Outcome of one submission of the commute form. -/
structure FormResult where
  store : Store
  warned : Bool
  saved : Bool
deriving DecidableEq

/-- The submission branch of `render_commute_tracker` (src/app.py:153-164):
if `route_name.strip()` is empty, warn and do not insert; otherwise insert
the row with `route_name` and `notes` trimmed. -/
def submit_entry (store : Store) (travel_date travel_time route_name : String)
    (duration_minutes : Int) (notes : String) (now : Timestamp) : FormResult :=
  if pyStrip route_name = "" then
    { store := store, warned := true, saved := false }
  else
    { store := insert_commute_log store travel_date travel_time
        (pyStrip route_name) duration_minutes (pyStrip notes) now
      warned := false
      saved := true }

/-! ## `fetch_commute_logs` : ORDER BY travel_date DESC, travel_time DESC, id DESC -/

/-- `a` may precede `b` under
`ORDER BY travel_date DESC, travel_time DESC, id DESC`. -/
def rowLe (a b : Row) : Prop :=
  strLt b.travel_date a.travel_date = true ∨
    (b.travel_date = a.travel_date ∧
      (strLt b.travel_time a.travel_time = true ∨
        (b.travel_time = a.travel_time ∧ b.id ≤ a.id)))

instance : DecidableRel rowLe := fun a b => by
  unfold rowLe
  exact inferInstance

instance : IsTotal Row rowLe := by
  constructor
  intro a b
  unfold rowLe strLt
  by_cases hd : lexLt b.travel_date.data a.travel_date.data = true
  · exact Or.inl (Or.inl hd)
  · by_cases hd' : lexLt a.travel_date.data b.travel_date.data = true
    · exact Or.inr (Or.inl hd')
    · have hdeq : a.travel_date = b.travel_date :=
        string_eq_of_data_eq (lexLt_eq_of_not a.travel_date.data b.travel_date.data
          (Bool.not_eq_true _ ▸ hd') (Bool.not_eq_true _ ▸ hd))
      by_cases ht : lexLt b.travel_time.data a.travel_time.data = true
      · exact Or.inl (Or.inr ⟨hdeq.symm, Or.inl ht⟩)
      · by_cases ht' : lexLt a.travel_time.data b.travel_time.data = true
        · exact Or.inr (Or.inr ⟨hdeq, Or.inl ht'⟩)
        · have hteq : a.travel_time = b.travel_time :=
            string_eq_of_data_eq (lexLt_eq_of_not a.travel_time.data b.travel_time.data
              (Bool.not_eq_true _ ▸ ht') (Bool.not_eq_true _ ▸ ht))
          rcases Nat.le_total b.id a.id with h | h
          · exact Or.inl (Or.inr ⟨hdeq.symm, Or.inr ⟨hteq.symm, h⟩⟩)
          · exact Or.inr (Or.inr ⟨hdeq, Or.inr ⟨hteq, h⟩⟩)

instance : IsTrans Row rowLe := by
  constructor
  intro a b c hab hbc
  unfold rowLe strLt at hab hbc ⊢
  rcases hab with h1 | ⟨e1, h1⟩
  · rcases hbc with h2 | ⟨e2, h2⟩
    · exact Or.inl (lexLt_trans _ _ _ h2 h1)
    · exact Or.inl (e2 ▸ h1)
  · rcases hbc with h2 | ⟨e2, h2⟩
    · exact Or.inl (e1 ▸ h2)
    · refine Or.inr ⟨e1 ▸ e2, ?_⟩
      rcases h1 with h1 | ⟨f1, h1⟩
      · rcases h2 with h2 | ⟨f2, h2⟩
        · exact Or.inl (lexLt_trans _ _ _ h2 h1)
        · exact Or.inl (f2 ▸ h1)
      · rcases h2 with h2 | ⟨f2, h2⟩
        · exact Or.inl (f1 ▸ h2)
        · exact Or.inr ⟨f1 ▸ f2, Nat.le_trans h2 h1⟩

/-- The six columns selected by `fetch_commute_logs` (`id` is used for
ordering but not returned). -/
structure LogView where
  travel_date : String
  travel_time : String
  route_name : String
  duration_minutes : Int
  notes : String
  created_at : String
deriving DecidableEq

/-- Projection of a row onto the selected columns. -/
def selectCols (r : Row) : LogView :=
  { travel_date := r.travel_date
    travel_time := r.travel_time
    route_name := r.route_name
    duration_minutes := r.duration_minutes
    notes := r.notes
    created_at := r.created_at }

/-- `fetch_commute_logs` (src/app.py:90-105): `SELECT` the six columns
`ORDER BY travel_date DESC, travel_time DESC, id DESC LIMIT ?`, default
`limit=50`. -/
def fetch_commute_logs (store : Store) (limit : Nat := 50) : List LogView :=
  ((List.insertionSort rowLe store.rows).take limit).map selectCols

/-! ## `fetch_commute_summary` : GROUP BY route_name -/

/-- Round `a / b` to the nearest integer, halves away from zero (SQLite's
`ROUND`); only defined behaviour for `b > 0`.  Computed on the absolute value
so only truncating natural division is used. -/
def roundAwayDiv (a : Int) (b : Nat) : Int :=
  let q : Nat := (2 * a.natAbs + b) / (2 * b)
  if 0 ≤ a then (q : Int) else -(q : Int)

/-- One result row of `fetch_commute_summary`.  `ROUND(AVG(..), 1)` yields a
one-decimal value; it is represented exactly as `avg_minutes_tenths`, i.e.
`avg_minutes = avg_minutes_tenths / 10`. -/
structure RouteSummary where
  route_name : String
  trips : Nat
  total_minutes : Int
  avg_minutes_tenths : Int
deriving DecidableEq

/-- The group row for route `r`: `COUNT(*)`, `SUM(duration_minutes)` and
`ROUND(AVG(duration_minutes), 1)` over the rows whose `route_name` is `r`. -/
def summaryFor (rows : List Row) (r : String) : RouteSummary :=
  let grp := rows.filter fun row => decide (row.route_name = r)
  { route_name := r
    trips := grp.length
    total_minutes := (grp.map Row.duration_minutes).sum
    avg_minutes_tenths := roundAwayDiv (10 * (grp.map Row.duration_minutes).sum) grp.length }

/-- `a` may precede `b` under `ORDER BY total_minutes DESC, trips DESC`. -/
def summaryLe (a b : RouteSummary) : Prop :=
  b.total_minutes < a.total_minutes ∨
    (b.total_minutes = a.total_minutes ∧ b.trips ≤ a.trips)

instance : DecidableRel summaryLe := fun a b => by
  unfold summaryLe
  exact inferInstance

instance : IsTotal RouteSummary summaryLe := by
  constructor
  intro a b
  unfold summaryLe
  omega

instance : IsTrans RouteSummary summaryLe := by
  constructor
  intro a b c hab hbc
  unfold summaryLe at hab hbc ⊢
  omega

/-- `fetch_commute_summary` (src/app.py:107-125): `GROUP BY route_name` (one
group per distinct route name), aggregates per group, then
`ORDER BY total_minutes DESC, trips DESC`. -/
def fetch_commute_summary (store : Store) : List RouteSummary :=
  List.insertionSort summaryLe
    (((store.rows.map Row.route_name).dedup).map (summaryFor store.rows))

/-! ## `build_csv` -/

/-- A value held in one of the row dictionaries passed to `build_csv`
(`sqlite3.Row` converted to `dict`: `TEXT` → string, `INTEGER` → int). -/
inductive Value where
  | vstr (s : String)
  | vint (n : Int)
deriving DecidableEq

/-- Python `str()` on a dictionary value. -/
def pyStr : Value → String
  | .vstr s => s
  | .vint n => toString n

/-- A row dictionary: association list from column name to value
(`dict(row)`). -/
def Dict : Type := List (String × Value)

/-- Python `log.get(col, "")`. -/
def dictGet (log : Dict) (col : String) : Value :=
  (List.lookup col log).getD (Value.vstr "")

/-- Python `s.replace(old, new)` for a single-character pattern: every
occurrence of `old` becomes `new`. -/
def pyReplaceChar (s : String) (old new : Char) : String :=
  String.mk (s.data.map fun c => if c = old then new else c)

/-- The sanitization `build_csv` applies to each field:
`str(...).replace("\n", " ").replace(",", " ")`. -/
def sanitizeField (s : String) : String :=
  pyReplaceChar (pyReplaceChar s '\n' ' ') ',' ' '

/-- Python `sep.join(parts)` for a single-character separator, at the
character-list level. -/
def joinData (sep : Char) : List (List Char) → List Char
  | [] => []
  | [x] => x
  | x :: y :: rest => x ++ sep :: joinData sep (y :: rest)

/-- Python `sep.join(parts)` on strings, single-character separator. -/
def pyJoin (sep : Char) (parts : List String) : String :=
  String.mk (joinData sep (parts.map String.data))

/-- The fixed header of `build_csv`. -/
def csvHeader : List String :=
  ["travel_date", "travel_time", "route_name", "duration_minutes", "notes", "created_at"]

/-- One sanitized field: `str(log.get(col, "")).replace("\n", " ").replace(",", " ")`. -/
def csvField (log : Dict) (col : String) : String :=
  sanitizeField (pyStr (dictGet log col))

/-- One data line of the CSV: the six sanitized fields joined with commas. -/
def csvLine (log : Dict) : String :=
  pyJoin ',' (csvHeader.map (csvField log))

/-- The list `lines` built by `build_csv`: header line then one line per log. -/
def csvLines (logs : List Dict) : List String :=
  pyJoin ',' csvHeader :: logs.map csvLine

/-- `build_csv` (src/app.py:127-133): `"\n".join(lines)`. -/
def build_csv (logs : List Dict) : String :=
  pyJoin '\n' (csvLines logs)

/-! ## Chat controller -/

/-- One chat message: `{"role": ..., "content": ...}`. -/
structure ChatMessage where
  role : String
  content : String
deriving DecidableEq

/-- The webhook's HTTP response, as far as `send_message_to_llm` inspects it:
status code, body text, and — when the body is JSON with an `output` field —
that field (`none` models a body for which `response.json()["output"]`
raises). -/
structure Response where
  status : Nat
  text : String
  json_output : Option String

/-- `send_message_to_llm` (src/app.py:41-50).  `Except.error` models the
unhandled exception raised by `response.json()["output"]` when the 200 body
has no parsable `output` field. -/
def send_message_to_llm (resp : Response) : Except String String :=
  if resp.status = 200 then
    match resp.json_output with
    | some out => .ok out
    | none => .error "response.json()[output] raised"
  else
    .ok ("Error: " ++ toString resp.status ++ " - " ++ resp.text)

/-- The chat view's session state once initialized: `st.session_state.messages`
and `st.session_state.session_id`. -/
structure ChatState where
  messages : List ChatMessage
  session_id : String
deriving DecidableEq

/-- Result of one chat interaction: either the re-render completed, or an
exception escaped after the state had already been partially mutated. -/
inductive SubmitOutcome where
  | ok (st : ChatState)
  | exn (st : ChatState)
deriving DecidableEq

/-- The `if user_input:` block of `main` (src/app.py:213-225): append the user
message, call the webhook, append the reply as an assistant message.  The
webhook's response is passed in as `resp`.  An empty `user_input` is falsy, so
the block does nothing. -/
def submit (st : ChatState) (user_text : String) (resp : Response) : SubmitOutcome :=
  if user_text = "" then .ok st
  else
    let st1 : ChatState :=
      { st with messages := st.messages ++ [{ role := "user", content := user_text }] }
    match send_message_to_llm resp with
    | .ok reply =>
        .ok { st1 with messages := st1.messages ++ [{ role := "assistant", content := reply }] }
    | .error _ => .exn st1

/-- `st.session_state` before the chat view has necessarily initialized it:
each key may be absent. -/
structure SessionState where
  messages : Option (List ChatMessage)
  session_id : Option String
deriving DecidableEq

/-- The initialization block of `main` (src/app.py:199-203): set
`st.session_state.messages = []` if the key is absent, and
`st.session_state.session_id = generate_session_id()` if that key is absent.
`freshId` is the id `generate_session_id()` would return if called. -/
def chat_init (st : SessionState) (freshId : String) : SessionState :=
  let st1 : SessionState :=
    if st.messages.isSome then st else { st with messages := some [] }
  if st1.session_id.isSome then st1 else { st1 with session_id := some freshId }

/-- Lowercase hexadecimal digit. -/
def hexDigit (n : Nat) : Char :=
  if n < 10 then Char.ofNat (48 + n) else Char.ofNat (87 + n)

/-- `n` printed as exactly `w` lowercase hex digits (most significant first). -/
def hexDigits (n w : Nat) : List Char :=
  (List.range w).map fun i => hexDigit (n / 16 ^ (w - 1 - i) % 16)

/-- `generate_session_id` (src/app.py:38-39): `str(uuid.uuid4())`.  `uuid4`
draws 122 random bits (here: `r`), fixes the version nibble to `4` and the
variant bits to `10`, and `str` renders the canonical 8-4-4-4-12 form. -/
def generate_session_id (r : Nat) : String :=
  String.mk
    (hexDigits (r % 2 ^ 32) 8 ++ '-' ::
      (hexDigits (r / 2 ^ 32 % 2 ^ 16) 4 ++ '-' ::
        ('4' :: hexDigits (r / 2 ^ 48 % 2 ^ 12) 3 ++ '-' ::
          (hexDigit (8 + r / 2 ^ 60 % 4) :: hexDigits (r / 2 ^ 62 % 2 ^ 12) 3 ++ '-' ::
            hexDigits (r / 2 ^ 74 % 2 ^ 48) 12))))

/-! ## Webhook URL resolution -/

/-- The env-var arm of `load_webhook_url`: `os.environ.get("WEBHOOK_URL")`
followed by `if webhook_url: return webhook_url` — an empty value is falsy
and yields `None`. -/
def envWebhookUrl (env : Option String) : Option String :=
  match env with
  | some e => if e = "" then none else some e
  | none => none

/-- `load_webhook_url` (src/app.py:13-29).  `file` is `config.txt`'s full text
when the file exists, `none` when `open` raises `FileNotFoundError`; `env` is
the value of the `WEBHOOK_URL` environment variable.  The code strips the
whole file content and returns it iff it is non-empty and does not start with
`'#'`; in every other case it falls through to the environment variable. -/
def load_webhook_url (file env : Option String) : Option String :=
  let fromFile : Option String :=
    match file with
    | some raw =>
        let content := pyStrip raw
        if content ≠ "" ∧ startsWithHash content = false then some content else none
    | none => none
  match fromFile with
  | some url => some url
  | none => envWebhookUrl env

/-- How startup proceeds after `WEBHOOK_URL = load_webhook_url()`
(src/app.py:32-36). -/
inductive StartResult where
  | haltedWithGuidance
  | running (url : String)
deriving DecidableEq

/-- The module-level guard: `if not WEBHOOK_URL: st.error(...); st.info(...);
st.stop()` — no URL means the app halts showing setup guidance and renders
nothing else. -/
def app_start (url : Option String) : StartResult :=
  match url with
  | none => .haltedWithGuidance
  | some u => .running u

/-- Modelled from the spec: the spec's reading of the config file — "read from
a local text file's first non-comment, non-empty line".  Used only to compare
against `load_webhook_url`, which is translated from the code. -/
def firstNonCommentLine (raw : String) : Option String :=
  (raw.data.splitOn '\n').findSome? fun l =>
    if pyStrip (String.mk l) = "" ∨ startsWithHash (String.mk (l.dropWhile pyIsSpace)) = true
    then none else some (pyStrip (String.mk l))

/-- Modelled from the spec: webhook URL resolution as the claim states it —
first non-comment, non-empty line of the file; the environment variable only
when the file is absent. -/
def load_webhook_url_spec (file env : Option String) : Option String :=
  match file with
  | some raw => firstNonCommentLine raw
  | none => envWebhookUrl env

/-! ## Sample data used by the claims' concrete scenarios -/

/-- A sample row for the aggregation scenario. -/
def sampleRow (i : Nat) (route : String) (dur : Int) : Row :=
  { id := i
    travel_date := "2026-01-01"
    travel_time := "08:00"
    route_name := route
    duration_minutes := dur
    notes := ""
    created_at := "2026-01-01T08:00:00" }

/-- The stored entries `{(RouteA,30),(RouteA,50),(RouteB,20)}` of the
aggregation scenario. -/
def sampleStore : Store :=
  { rows := [sampleRow 1 "RouteA" 30, sampleRow 2 "RouteA" 50, sampleRow 3 "RouteB" 20]
    nextId := 4 }

/-- A row dictionary whose `notes` value is `"a,b\nc"`. -/
def sampleLog : Dict :=
  [("travel_date", Value.vstr "2026-01-01"), ("travel_time", Value.vstr "08:00"),
   ("route_name", Value.vstr "Home"), ("duration_minutes", Value.vint 30),
   ("notes", Value.vstr "a,b\nc"), ("created_at", Value.vstr "2026-01-01T08:00:00")]

/-! ## Helper lemmas -/

theorem pyStrip_eq_empty {s : String} (h : ∀ c ∈ s.data, pyIsSpace c = true) :
    pyStrip s = "" := by
  unfold pyStrip
  rw [List.dropWhile_eq_nil_iff.mpr h]
  rfl

/-- Every character of a sanitized field is neither a newline nor a comma. -/
theorem sanitize_mem {s : String} {c : Char} (hc : c ∈ (sanitizeField s).data) :
    c ≠ '\n' ∧ c ≠ ',' := by
  simp only [sanitizeField, pyReplaceChar, List.mem_map] at hc
  obtain ⟨d, ⟨e, _, rfl⟩, rfl⟩ := hc
  constructor <;> split_ifs <;> simp_all

/-- Characters of a join come from the separator or from one of the parts. -/
theorem joinData_mem {sep c : Char} :
    ∀ {parts : List (List Char)}, c ∈ joinData sep parts →
      c = sep ∨ ∃ p ∈ parts, c ∈ p := by
  intro parts
  induction parts with
  | nil => intro h; simp [joinData] at h
  | cons x xs ih =>
    intro h
    cases xs with
    | nil =>
      simp only [joinData] at h
      exact Or.inr ⟨x, by simp, h⟩
    | cons y ys =>
      simp only [joinData, List.mem_append, List.mem_cons] at h
      rcases h with h | h | h
      · exact Or.inr ⟨x, by simp, h⟩
      · exact Or.inl h
      · rcases ih h with h' | ⟨p, hp, hcp⟩
        · exact Or.inl h'
        · exact Or.inr ⟨p, by simp [hp], hcp⟩

/-- Joining parts that do not contain the separator yields exactly
`parts.length - 1` separator occurrences. -/
theorem joinData_count {sep : Char} :
    ∀ {parts : List (List Char)}, (∀ p ∈ parts, sep ∉ p) →
      (joinData sep parts).count sep = parts.length - 1 := by
  intro parts
  induction parts with
  | nil => intro _; simp [joinData]
  | cons x xs ih =>
    intro h
    cases xs with
    | nil =>
      simp only [joinData]
      simp [List.count_eq_zero.mpr (h x (by simp))]
    | cons y ys =>
      simp only [joinData, List.count_append, List.count_cons_self]
      rw [List.count_eq_zero.mpr (h x (by simp)),
        ih (fun p hp => h p (by simp [hp]))]
      simp only [List.length_cons]
      omega

/-! ## Claim theorems -/

/-- C1: `summarize()` (`fetch_commute_summary`) returns exactly one summary
record per distinct `route_name` over all persisted rows; `trips` is the
group's row count, `total_minutes` the sum of its `duration_minutes`, and
`avg_minutes` the arithmetic mean rounded to one decimal place (represented
in tenths); the records are ordered by `total_minutes` descending then
`trips` descending; and for the stored entries
`{(RouteA,30),(RouteA,50),(RouteB,20)}` it yields RouteA (trips=2, total=80,
avg=40.0) before RouteB (trips=1, total=20, avg=20.0). -/
theorem fetch_commute_summary_spec (store : Store) :
    (∀ r : String,
      r ∈ (fetch_commute_summary store).map RouteSummary.route_name ↔
        r ∈ store.rows.map Row.route_name) ∧
    ((fetch_commute_summary store).map RouteSummary.route_name).Nodup ∧
    (∀ s ∈ fetch_commute_summary store,
      s.trips = (store.rows.filter fun row => decide (row.route_name = s.route_name)).length ∧
      s.total_minutes =
        ((store.rows.filter fun row => decide (row.route_name = s.route_name)).map
          Row.duration_minutes).sum ∧
      s.avg_minutes_tenths =
        roundAwayDiv
          (10 * ((store.rows.filter fun row => decide (row.route_name = s.route_name)).map
            Row.duration_minutes).sum)
          (store.rows.filter fun row => decide (row.route_name = s.route_name)).length) ∧
    List.Sorted summaryLe (fetch_commute_summary store) ∧
    fetch_commute_summary sampleStore =
      [{ route_name := "RouteA", trips := 2, total_minutes := 80, avg_minutes_tenths := 400 },
       { route_name := "RouteB", trips := 1, total_minutes := 20, avg_minutes_tenths := 200 }] := by
  have hperm :=
    List.perm_insertionSort summaryLe
      ((store.rows.map Row.route_name).dedup.map (summaryFor store.rows))
  have hmaps : ((fetch_commute_summary store).map RouteSummary.route_name).Perm
      (store.rows.map Row.route_name).dedup := by
    have h1 := hperm.map RouteSummary.route_name
    rw [List.map_map] at h1
    have h2 : (RouteSummary.route_name ∘ summaryFor store.rows) = id := funext fun r => rfl
    rw [h2, List.map_id] at h1
    simpa [fetch_commute_summary] using h1
  refine ⟨?_, ?_, ?_, ?_, ?_⟩
  · intro r
    rw [hmaps.mem_iff, List.mem_dedup]
  · exact hmaps.nodup_iff.mpr (List.nodup_dedup _)
  · intro s hs
    have hs2 : s ∈ (store.rows.map Row.route_name).dedup.map (summaryFor store.rows) :=
      hperm.mem_iff.mp (by simpa [fetch_commute_summary] using hs)
    obtain ⟨r, _, rfl⟩ := List.mem_map.mp hs2
    exact ⟨rfl, rfl, rfl⟩
  · exact List.sorted_insertionSort summaryLe _
  · decide

/-- C2: `list_recent(N)` (`fetch_commute_logs`) returns at most `N` rows,
ordered by `travel_date` descending, then `travel_time` descending, then `id`
descending as tie-break; the default limit is 50; and, the function being a
pure function of the store, repeated calls with no intervening writes return
the same sequence. -/
theorem fetch_commute_logs_spec (store : Store) (limit : Nat) :
    (fetch_commute_logs store limit).length ≤ limit ∧
    List.Sorted rowLe ((List.insertionSort rowLe store.rows).take limit) ∧
    fetch_commute_logs store limit =
      ((List.insertionSort rowLe store.rows).take limit).map selectCols ∧
    fetch_commute_logs store = fetch_commute_logs store 50 ∧
    fetch_commute_logs store limit = fetch_commute_logs store limit := by
  refine ⟨?_, ?_, rfl, rfl, rfl⟩
  · have h : (fetch_commute_logs store limit).length =
        min limit (List.insertionSort rowLe store.rows).length := by
      simp [fetch_commute_logs]
    omega
  · exact List.Pairwise.sublist (List.take_sublist _ _)
      (List.sorted_insertionSort rowLe store.rows)

/-- C3: for every non-200 webhook response with status `S` and body `B`,
`submit` produces the reply text exactly `"Error: {S} - {B}"`, appends it to
the transcript as an assistant-role message, and raises no exception (the
outcome is `ok`). -/
theorem submit_non200_spec (st : ChatState) (user_text : String) (resp : Response)
    (huser : user_text ≠ "") (hstatus : resp.status ≠ 200) :
    submit st user_text resp =
      .ok { messages := st.messages ++
              [{ role := "user", content := user_text },
               { role := "assistant",
                 content := "Error: " ++ toString resp.status ++ " - " ++ resp.text }]
            session_id := st.session_id } := by
  simp [submit, send_message_to_llm, huser, hstatus]

/-- C3 witness: a stub webhook returning HTTP 500 with body "internal error"
makes the transcript end with an assistant message whose content is exactly
"Error: 500 - internal error". -/
theorem submit_non200_spec_witness :
    submit { messages := [], session_id := "sid" } "hi"
        { status := 500, text := "internal error", json_output := none } =
      .ok { messages := [{ role := "user", content := "hi" },
                         { role := "assistant", content := "Error: 500 - internal error" }]
            session_id := "sid" } :=
  (submit_non200_spec { messages := [], session_id := "sid" } "hi"
      { status := 500, text := "internal error", json_output := none }
      (by decide) (by decide)).trans (by decide)

/-- C7: for every non-empty `user_text`, whenever the webhook interaction
yields a reply (which on HTTP 200 is the JSON body's `output` field),
`submit` appends the user message and then the assistant message: the
transcript grows by exactly two messages, user before assistant, and the
earlier messages are an unchanged prefix. -/
theorem submit_success_spec (st : ChatState) (user_text : String) (resp : Response)
    (reply : String) (huser : user_text ≠ "")
    (hreply : send_message_to_llm resp = .ok reply) :
    submit st user_text resp =
      .ok { messages := st.messages ++
              [{ role := "user", content := user_text },
               { role := "assistant", content := reply }]
            session_id := st.session_id } ∧
    (st.messages ++
      ([{ role := "user", content := user_text },
        { role := "assistant", content := reply }] : List ChatMessage)).length =
      st.messages.length + 2 ∧
    (st.messages ++
      ([{ role := "user", content := user_text },
        { role := "assistant", content := reply }] : List ChatMessage)).take
        st.messages.length = st.messages ∧
    (resp.status = 200 → resp.json_output = some reply) := by
  refine ⟨?_, by simp, ?_, ?_⟩
  · simp [submit, huser, hreply]
  · exact List.take_left st.messages
      ([{ role := "user", content := user_text },
        { role := "assistant", content := reply }] : List ChatMessage)
  · intro h200
    rw [send_message_to_llm, if_pos h200] at hreply
    cases hjson : resp.json_output with
    | none => rw [hjson] at hreply; exact absurd hreply (by simp)
    | some out =>
      rw [hjson] at hreply
      simp only [Except.ok.injEq] at hreply
      rw [hreply]

/-- C7 witness: a 200 response whose JSON body has `output = "hello"` makes
the transcript grow by exactly the user message then the assistant reply. -/
theorem submit_success_spec_witness :
    submit { messages := [], session_id := "sid" } "hi"
        { status := 200, text := "{}", json_output := some "hello" } =
      .ok { messages := [{ role := "user", content := "hi" },
                         { role := "assistant", content := "hello" }]
            session_id := "sid" } :=
  ((submit_success_spec { messages := [], session_id := "sid" } "hi"
      { status := 200, text := "{}", json_output := some "hello" } "hello"
      (by decide) rfl).1).trans (by decide)

/-- C4: `build_csv` replaces every newline and every comma inside a field
value with a single space before joining fields with commas: no character of
a sanitized field is a newline or a comma, the notes value `"a,b\nc"` is
rendered exactly `"a b c"`, and the full CSV for a row with those notes is
the exact unquoted text below. -/
theorem build_csv_sanitize_spec :
    (∀ s : String, '\n' ∉ (sanitizeField s).data ∧ ',' ∉ (sanitizeField s).data) ∧
    sanitizeField "a,b\nc" = "a b c" ∧
    build_csv [sampleLog] =
      "travel_date,travel_time,route_name,duration_minutes,notes,created_at\n2026-01-01,08:00,Home,30,a b c,2026-01-01T08:00:00" := by
  refine ⟨?_, by decide, by decide⟩
  intro s
  constructor
  · intro h
    exact (sanitize_mem h).1 rfl
  · intro h
    exact (sanitize_mem h).2 rfl

/-- C4 witness: the sanitized notes field of the concrete example. -/
theorem build_csv_sanitize_spec_witness : sanitizeField "a,b\nc" = "a b c" :=
  build_csv_sanitize_spec.2.1

/-- C10: `build_csv` produces one header line plus one line per row, every
line contains exactly 5 commas (6 fields), and a column missing from a row
dictionary is serialized as the empty string. -/
theorem build_csv_shape_spec (logs : List Dict) :
    (csvLines logs).length = logs.length + 1 ∧
    (∀ line ∈ csvLines logs, line.data.count ',' = 5) ∧
    (build_csv logs).data.count '\n' = logs.length ∧
    (∀ log : Dict, ∀ col ∈ csvHeader, List.lookup col log = none →
      csvField log col = "") := by
  refine ⟨by simp [csvLines], ?_, ?_, ?_⟩
  · intro line hl
    rw [csvLines] at hl
    rcases List.mem_cons.mp hl with rfl | hl'
    · decide
    · obtain ⟨log, _, rfl⟩ := List.mem_map.mp hl'
      have hfree : ∀ p ∈ (csvHeader.map (csvField log)).map String.data, ',' ∉ p := by
        intro p hp
        obtain ⟨f, hf, rfl⟩ := List.mem_map.mp hp
        obtain ⟨col, _, rfl⟩ := List.mem_map.mp hf
        intro hc
        exact (sanitize_mem hc).2 rfl
      have hcount := joinData_count hfree
      simpa [pyJoin, csvLine, csvHeader] using hcount
  · have hfree : ∀ p ∈ (csvLines logs).map String.data, '\n' ∉ p := by
      intro p hp
      obtain ⟨line, hline, rfl⟩ := List.mem_map.mp hp
      rw [csvLines] at hline
      rcases List.mem_cons.mp hline with rfl | hl'
      · decide
      · obtain ⟨log, _, rfl⟩ := List.mem_map.mp hl'
        intro hc
        have hc2 : '\n' ∈ joinData ',' ((csvHeader.map (csvField log)).map String.data) := hc
        rcases joinData_mem hc2 with h | ⟨p2, hp2, hcp⟩
        · exact absurd h (by decide)
        · obtain ⟨f, hf, rfl⟩ := List.mem_map.mp hp2
          obtain ⟨col, _, rfl⟩ := List.mem_map.mp hf
          exact (sanitize_mem hcp).1 rfl
    have hcount := joinData_count hfree
    have hlen : ((csvLines logs).map String.data).length = logs.length + 1 := by
      simp [csvLines]
    show (pyJoin '\n' (csvLines logs)).data.count '\n' = logs.length
    rw [show (pyJoin '\n' (csvLines logs)).data =
      joinData '\n' ((csvLines logs).map String.data) from rfl, hcount, hlen]
    omega
  · intro log col _ hnone
    rw [csvField, dictGet, hnone]
    rfl

/-- C10 witness: the concrete CSV for one sample row has two lines, both with
exactly five commas, and a dictionary without the `notes` key serializes that
field as the empty string. -/
theorem build_csv_shape_spec_witness :
    (csvLines [sampleLog]).length = 1 + 1 ∧
    csvField [("travel_date", Value.vstr "2026-01-01")] "notes" = "" :=
  ⟨(build_csv_shape_spec [sampleLog]).1,
   (build_csv_shape_spec []).2.2.2 [("travel_date", Value.vstr "2026-01-01")] "notes"
     (by decide) (by decide)⟩

/-- C5: a submission whose route name consists only of whitespace (or is
empty) inserts no row — the store is returned unchanged — raises no
exception, and only sets the user-visible warning. -/
theorem submit_entry_blank_route_spec (store : Store)
    (travel_date travel_time route_name : String) (duration_minutes : Int)
    (notes : String) (now : Timestamp)
    (h : ∀ c ∈ route_name.data, pyIsSpace c = true) :
    submit_entry store travel_date travel_time route_name duration_minutes notes now =
      { store := store, warned := true, saved := false } := by
  simp [submit_entry, pyStrip_eq_empty h]

/-- C5 witness: an all-whitespace route name leaves a one-row store
untouched and warns. -/
theorem submit_entry_blank_route_spec_witness :
    submit_entry { rows := [sampleRow 1 "RouteA" 30], nextId := 2 }
        "2026-01-02" "09:00" " \t\n" 15 "memo" { year := 2026, month := 1, day := 2, hour := 9, minute := 0, second := 0 } =
      { store := { rows := [sampleRow 1 "RouteA" 30], nextId := 2 },
        warned := true, saved := false } :=
  submit_entry_blank_route_spec { rows := [sampleRow 1 "RouteA" 30], nextId := 2 }
    "2026-01-02" "09:00" " \t\n" 15 "memo"
    { year := 2026, month := 1, day := 2, hour := 9, minute := 0, second := 0 }
    (by decide)

/-- C8: a valid submission (route name non-empty after trimming) appends
exactly one new row whose `route_name` and `notes` are the trimmed inputs and
whose `created_at` is the clock reading formatted at second precision;
existing rows are an unchanged prefix, and the form reports success. -/
theorem submit_entry_valid_spec (store : Store)
    (travel_date travel_time route_name : String) (duration_minutes : Int)
    (notes : String) (now : Timestamp) (h : pyStrip route_name ≠ "") :
    (submit_entry store travel_date travel_time route_name duration_minutes notes now).store.rows =
      store.rows ++
        [{ id := store.nextId
           travel_date := travel_date
           travel_time := travel_time
           route_name := pyStrip route_name
           duration_minutes := duration_minutes
           notes := pyStrip notes
           created_at := isoformatSeconds now }] ∧
    (submit_entry store travel_date travel_time route_name duration_minutes notes
        now).store.rows.length = store.rows.length + 1 ∧
    (submit_entry store travel_date travel_time route_name duration_minutes notes
        now).store.rows.take store.rows.length = store.rows ∧
    (submit_entry store travel_date travel_time route_name duration_minutes notes
        now).warned = false ∧
    (submit_entry store travel_date travel_time route_name duration_minutes notes
        now).saved = true ∧
    (submit_entry store travel_date travel_time route_name duration_minutes notes
        now).store.nextId = store.nextId + 1 := by
  refine ⟨?_, ?_, ?_, ?_, ?_, ?_⟩ <;>
    simp [submit_entry, insert_commute_log, h]

/-- C8 witness: a concrete valid submission stores the trimmed route and
notes and the second-precision timestamp. -/
theorem submit_entry_valid_spec_witness :
    (submit_entry { rows := [], nextId := 1 } "2026-01-02" "09:05" " RouteA "
        30 " note " { year := 2026, month := 1, day := 2, hour := 9, minute := 5, second := 7 }).store.rows =
      [{ id := 1
         travel_date := "2026-01-02"
         travel_time := "09:05"
         route_name := "RouteA"
         duration_minutes := 30
         notes := "note"
         created_at := "2026-01-02T09:05:07" }] :=
  ((submit_entry_valid_spec { rows := [], nextId := 1 } "2026-01-02" "09:05" " RouteA "
      30 " note " { year := 2026, month := 1, day := 2, hour := 9, minute := 5, second := 7 }
      (by decide)).1).trans (by decide)

/-- C9: chat initialization is idempotent — on first render of a session it
creates an empty message sequence and sets the freshly generated UUID-format
id; on a session that already has both keys it changes nothing; and
`generate_session_id` renders the 36-character 8-4-4-4-12 UUID form with
version nibble `4`. -/
theorem chat_init_spec (st : SessionState) (ms : List ChatMessage)
    (sid freshId : String) (r : Nat) :
    chat_init { messages := none, session_id := none } freshId =
      { messages := some [], session_id := some freshId } ∧
    (st.messages = some ms → st.session_id = some sid →
      chat_init st freshId = st) ∧
    (generate_session_id r).length = 36 ∧
    (∃ a b c d e : List Char, a.length = 8 ∧ b.length = 4 ∧ c.length = 3 ∧
      d.length = 3 ∧ e.length = 12 ∧
      generate_session_id r =
        String.mk (a ++ '-' :: (b ++ '-' :: ('4' :: c ++ '-' ::
          (hexDigit (8 + r / 2 ^ 60 % 4) :: d ++ '-' :: e))))) := by
  refine ⟨rfl, ?_, ?_, ?_⟩
  · intro hm hs
    simp [chat_init, hm, hs]
  · simp [generate_session_id, String.length, hexDigits]
  · exact ⟨hexDigits (r % 2 ^ 32) 8, hexDigits (r / 2 ^ 32 % 2 ^ 16) 4,
      hexDigits (r / 2 ^ 48 % 2 ^ 12) 3, hexDigits (r / 2 ^ 62 % 2 ^ 12) 3,
      hexDigits (r / 2 ^ 74 % 2 ^ 48) 12,
      by simp [hexDigits], by simp [hexDigits], by simp [hexDigits],
      by simp [hexDigits], by simp [hexDigits], rfl⟩

/-- C9 witness: re-rendering an already-initialized session changes neither
the id nor the history. -/
theorem chat_init_spec_witness :
    chat_init
        { messages := some [{ role := "user", content := "hi" }], session_id := some "abc" }
        "fresh" =
      { messages := some [{ role := "user", content := "hi" }], session_id := some "abc" } :=
  (chat_init_spec
      { messages := some [{ role := "user", content := "hi" }], session_id := some "abc" }
      [{ role := "user", content := "hi" }] "abc" "fresh" 0).2.1 rfl rfl

/-- C6 counterexample: for the config file content `"# comment\n<url>"`, the
claim says resolution reads the first non-comment, non-empty line — the URL
on line two — but `load_webhook_url` strips the whole file content, sees a
leading `'#'`, ignores the file, finds no environment variable, and the app
halts. -/
theorem load_webhook_url_counterexample :
    load_webhook_url (some "# comment\nhttp://example.com/hook") none = none ∧
    load_webhook_url_spec (some "# comment\nhttp://example.com/hook") none =
      some "http://example.com/hook" ∧
    app_start (load_webhook_url (some "# comment\nhttp://example.com/hook") none) =
      StartResult.haltedWithGuidance := by
  decide

/-- C6 amended: `load_webhook_url` strips the whole file content and returns
it as the URL iff it is non-empty and does not start with `'#'`; in every
other case — including a file whose stripped content is empty or starts with
`'#'`, and an absent file — it falls back to the `WEBHOOK_URL` environment
variable (empty value counting as unset); when neither yields a URL the app
refuses to start and surfaces setup guidance, and otherwise it runs with the
resolved URL. -/
theorem load_webhook_url_amended (raw : String) (env : Option String) :
    (pyStrip raw ≠ "" → startsWithHash (pyStrip raw) = false →
      load_webhook_url (some raw) env = some (pyStrip raw)) ∧
    (pyStrip raw = "" ∨ startsWithHash (pyStrip raw) = true →
      load_webhook_url (some raw) env = envWebhookUrl env) ∧
    load_webhook_url none env = envWebhookUrl env ∧
    (∀ file : Option String, load_webhook_url file env = none →
      app_start (load_webhook_url file env) = StartResult.haltedWithGuidance) ∧
    (∀ (file : Option String) (url : String), load_webhook_url file env = some url →
      app_start (load_webhook_url file env) = StartResult.running url) := by
  refine ⟨?_, ?_, rfl, ?_, ?_⟩
  · intro h1 h2
    simp [load_webhook_url, h1, h2]
  · intro h
    rcases h with h | h
    · simp [load_webhook_url, h]
    · simp [load_webhook_url, h]
  · intro file h
    rw [h]
    rfl
  · intro file url h
    rw [h]
    rfl

/-- C6 amended witness: a file whose whole content is the URL resolves to
that URL. -/
theorem load_webhook_url_amended_witness :
    load_webhook_url (some "http://example.com/hook\n") none =
      some "http://example.com/hook" :=
  ((load_webhook_url_amended "http://example.com/hook\n" none).1
    (by decide) (by decide)).trans (by decide)

/-- C1 witness: the aggregation scenario evaluated on the sample store. -/
theorem fetch_commute_summary_spec_witness :
    fetch_commute_summary sampleStore =
      [{ route_name := "RouteA", trips := 2, total_minutes := 80, avg_minutes_tenths := 400 },
       { route_name := "RouteB", trips := 1, total_minutes := 20, avg_minutes_tenths := 200 }] :=
  (fetch_commute_summary_spec sampleStore).2.2.2.2

/-- C2 witness: with three stored rows and limit 1, at most one row comes
back. -/
theorem fetch_commute_logs_spec_witness :
    (fetch_commute_logs sampleStore 1).length ≤ 1 :=
  (fetch_commute_logs_spec sampleStore 1).1
